import Mathlib

/-!
Verification of the UniScann barcode detector (src/src/1.-BarcodeDetector).

Python strings are modelled as `List Char`; a Python function that can raise
an uncaught exception is modelled with an `Option` result, `none` standing
for the exception.  Python floats appearing in the cooldown logic, the scale
factors and the statistics are modelled as rationals.
-/

namespace UniScann

/-- Models Python's built-in int() applied to a single character: it accepts
exactly the Unicode decimal digits (general category Nd) and raises ValueError
on everything else.  The Nd ranges modelled here are ASCII 0-9, Arabic-Indic,
Extended Arabic-Indic, Devanagari and fullwidth digits; all remaining
characters are mapped to none. -/
def pyDecimalVal (c : Char) : Option Nat :=
  if 0x30 ≤ c.toNat ∧ c.toNat ≤ 0x39 then some (c.toNat - 0x30)
  else if 0x660 ≤ c.toNat ∧ c.toNat ≤ 0x669 then some (c.toNat - 0x660)
  else if 0x6F0 ≤ c.toNat ∧ c.toNat ≤ 0x6F9 then some (c.toNat - 0x6F0)
  else if 0x966 ≤ c.toNat ∧ c.toNat ≤ 0x96F then some (c.toNat - 0x966)
  else if 0xFF10 ≤ c.toNat ∧ c.toNat ≤ 0xFF19 then some (c.toNat - 0xFF10)
  else none

/-- Models Python's str.isdigit on one character: true on decimal digits (Nd)
and additionally on characters with Numeric_Type=Digit that int() rejects,
such as the superscript digits U+00B2, U+00B3, U+00B9, U+2070, U+2074-U+2079
and the subscript digits U+2080-U+2089. -/
def pyIsDigitChar (c : Char) : Bool :=
  (pyDecimalVal c).isSome || c.toNat == 0xB2 || c.toNat == 0xB3 || c.toNat == 0xB9 ||
  c.toNat == 0x2070 || (decide (0x2074 ≤ c.toNat) && decide (c.toNat ≤ 0x2079)) ||
  (decide (0x2080 ≤ c.toNat) && decide (c.toNat ≤ 0x2089))

/-- Models Python's str.isdigit on a whole string: nonempty and every
character is a digit. -/
def pyStrIsDigit (s : List Char) : Bool :=
  !s.isEmpty && s.all pyIsDigitChar

/-- Applies Python's int() to every character of the string, propagating the
ValueError (modelled as none) raised on a digit character that is not a
decimal digit. -/
def pyIntList : List Char → Option (List Nat)
  | [] => some []
  | c :: cs =>
    match pyDecimalVal c with
    | none => none
    | some d =>
      match pyIntList cs with
      | none => none
      | some ds => some (d :: ds)

/-- Sum of the entries of ds at the given index list (out-of-range reads 0;
they never happen at the call sites below). -/
def sumAt (ds : List Nat) (idxs : List Nat) : Nat :=
  (idxs.map fun i => ds.getD i 0).sum

/-- BarcodeValidator.is_valid_ean13 (detector/validator.py).  Checks length
13, then str.isdigit, then compares the EAN-13 check digit with the last
digit.  int() is applied to each of the 13 characters; a character accepted
by isdigit but rejected by int() makes the Python function raise, modelled
here as none. -/
def is_valid_ean13 (code : List Char) : Option Bool :=
  if code.length ≠ 13 then some false
  else if pyStrIsDigit code then
    match pyIntList code with
    | none => none
    | some ds =>
      let odd_sum := sumAt ds [0, 2, 4, 6, 8, 10]
      let even_sum := sumAt ds [1, 3, 5, 7, 9, 11]
      let checksum := (10 - ((odd_sum + even_sum * 3) % 10)) % 10
      some (checksum == ds.getD 12 0)
  else some false

/-- BarcodeValidator.is_valid_upca (detector/validator.py): length 12,
str.isdigit, UPC-A check digit against the last digit; none models the
uncaught ValueError as in is_valid_ean13. -/
def is_valid_upca (code : List Char) : Option Bool :=
  if code.length ≠ 12 then some false
  else if pyStrIsDigit code then
    match pyIntList code with
    | none => none
    | some ds =>
      let odd_sum := sumAt ds [0, 2, 4, 6, 8, 10]
      let even_sum := sumAt ds [1, 3, 5, 7, 9]
      let checksum := (10 - ((odd_sum * 3 + even_sum) % 10)) % 10
      some (checksum == ds.getD 11 0)
  else some false

theorem pyIntList_eq (code : List Char) :
    pyIntList code =
      if (code.all fun c => (pyDecimalVal c).isSome) = true
      then some (code.map fun c => (pyDecimalVal c).getD 0)
      else none := by
  induction code with
  | nil => simp [pyIntList]
  | cons c cs ih =>
    simp only [pyIntList, List.all_cons, List.map_cons]
    cases h : pyDecimalVal c with
    | none => simp [h]
    | some d =>
      rw [ih]
      by_cases hall : (cs.all fun c => (pyDecimalVal c).isSome) = true <;>
        simp [h, hall]

theorem pyIsDigitChar_of_decimal {c : Char} (h : (pyDecimalVal c).isSome = true) :
    pyIsDigitChar c = true := by
  simp [pyIsDigitChar, h]

theorem pyStrIsDigit_of_decimal {code : List Char} (hlen : code ≠ [])
    (hdig : (code.all fun c => (pyDecimalVal c).isSome) = true) :
    pyStrIsDigit code = true := by
  unfold pyStrIsDigit
  have hne : code.isEmpty = false := by
    cases code with
    | nil => exact absurd rfl hlen
    | cons c cs => rfl
  rw [hne]
  simp only [Bool.not_false, Bool.true_and, List.all_eq_true] at hdig ⊢
  exact fun c hc => pyIsDigitChar_of_decimal (hdig c hc)

theorem is_valid_ean13_ok_iff (code : List Char) :
    is_valid_ean13 code = some true ↔
      code.length = 13 ∧ (code.all fun c => (pyDecimalVal c).isSome) = true ∧
        (10 - ((sumAt (code.map fun c => (pyDecimalVal c).getD 0) [0, 2, 4, 6, 8, 10] +
                sumAt (code.map fun c => (pyDecimalVal c).getD 0) [1, 3, 5, 7, 9, 11] * 3)
               % 10)) % 10 =
          (code.map fun c => (pyDecimalVal c).getD 0).getD 12 0 := by
  unfold is_valid_ean13
  by_cases hlen : code.length = 13
  · have hne : code ≠ [] := by
      intro h
      rw [h] at hlen
      exact absurd hlen (by decide)
    by_cases hdig : (code.all fun c => (pyDecimalVal c).isSome) = true
    · rw [if_neg (not_not_intro hlen), if_pos (pyStrIsDigit_of_decimal hne hdig),
        pyIntList_eq, if_pos hdig]
      simp [hlen, hdig, beq_iff_eq]
    · by_cases hisdig : pyStrIsDigit code = true
      · rw [if_neg (not_not_intro hlen), if_pos hisdig, pyIntList_eq, if_neg hdig]
        simp [hdig]
      · rw [if_neg (not_not_intro hlen), if_neg hisdig]
        simp [hdig]
  · rw [if_pos hlen]
    simp [hlen]

theorem is_valid_upca_ok_iff (code : List Char) :
    is_valid_upca code = some true ↔
      code.length = 12 ∧ (code.all fun c => (pyDecimalVal c).isSome) = true ∧
        (10 - ((sumAt (code.map fun c => (pyDecimalVal c).getD 0) [0, 2, 4, 6, 8, 10] * 3 +
                sumAt (code.map fun c => (pyDecimalVal c).getD 0) [1, 3, 5, 7, 9])
               % 10)) % 10 =
          (code.map fun c => (pyDecimalVal c).getD 0).getD 11 0 := by
  unfold is_valid_upca
  by_cases hlen : code.length = 12
  · have hne : code ≠ [] := by
      intro h
      rw [h] at hlen
      exact absurd hlen (by decide)
    by_cases hdig : (code.all fun c => (pyDecimalVal c).isSome) = true
    · rw [if_neg (not_not_intro hlen), if_pos (pyStrIsDigit_of_decimal hne hdig),
        pyIntList_eq, if_pos hdig]
      simp [hlen, hdig, beq_iff_eq]
    · by_cases hisdig : pyStrIsDigit code = true
      · rw [if_neg (not_not_intro hlen), if_pos hisdig, pyIntList_eq, if_neg hdig]
        simp [hdig]
      · rw [if_neg (not_not_intro hlen), if_neg hisdig]
        simp [hdig]
  · rw [if_pos hlen]
    simp [hlen]

/-- Claim C1: is_valid_ean13 answers true exactly on length-13 strings of
decimal digits whose EAN-13 check digit, computed from the digits at even
indices 0..10 plus three times the digits at odd indices 1..11 modulo 10 and
negated modulo 10, equals the digit at index 12; the reference code
4006381333931 validates, and replacing its final digit by any of the nine
other digits yields false. -/
theorem ean13_validator_correct :
    (∀ code : List Char,
      is_valid_ean13 code = some true ↔
        code.length = 13 ∧ (code.all fun c => (pyDecimalVal c).isSome) = true ∧
          (10 - ((sumAt (code.map fun c => (pyDecimalVal c).getD 0) [0, 2, 4, 6, 8, 10] +
                  sumAt (code.map fun c => (pyDecimalVal c).getD 0) [1, 3, 5, 7, 9, 11] * 3)
                 % 10)) % 10 =
            (code.map fun c => (pyDecimalVal c).getD 0).getD 12 0) ∧
    is_valid_ean13 "4006381333931".toList = some true ∧
    (['0', '2', '3', '4', '5', '6', '7', '8', '9'].map
        fun c => is_valid_ean13 ("400638133393".toList ++ [c])) =
      List.replicate 9 (some false) :=
  ⟨is_valid_ean13_ok_iff, by decide, by decide⟩

/-- Claim C5: is_valid_upca answers true exactly on length-12 strings of
decimal digits whose UPC-A check digit, computed as three times the digits at
even indices 0..10 plus the digits at odd indices 1..9 modulo 10 and negated
modulo 10, equals the digit at index 11. -/
theorem upca_validator_correct :
    ∀ code : List Char,
      is_valid_upca code = some true ↔
        code.length = 12 ∧ (code.all fun c => (pyDecimalVal c).isSome) = true ∧
          (10 - ((sumAt (code.map fun c => (pyDecimalVal c).getD 0) [0, 2, 4, 6, 8, 10] * 3 +
                  sumAt (code.map fun c => (pyDecimalVal c).getD 0) [1, 3, 5, 7, 9])
                 % 10)) % 10 =
            (code.map fun c => (pyDecimalVal c).getD 0).getD 11 0 :=
  is_valid_upca_ok_iff

/-- Claim C6 (code bug): the validators are not total on all strings — on the
13 (resp. 12) character string made of the superscript-two character U+00B2,
which Python's str.isdigit accepts but int() rejects, is_valid_ean13 and
is_valid_upca raise ValueError instead of returning false (none models the
uncaught exception). -/
theorem validators_raise_on_superscript_digits :
    is_valid_ean13 (List.replicate 13 '²') = none ∧
    is_valid_upca (List.replicate 12 '²') = none := by
  constructor <;> decide

/-- One entry of CodeStorage.detected_codes, as built by
CodeStorage.add_detected_code (storage/codeStorage.py): the detection
dictionary with keys codigo, tipo, timestamp, valido, es_farmaceutico. -/
structure DetectionRecord where
  codigo : String
  tipo : String
  timestamp : String
  valido : Bool
  es_farmaceutico : Bool
deriving DecidableEq

/-- The mutable fields of CodeStorage (storage/codeStorage.py) read or
written by should_process_detection: the detections list and the cooldown
pair (last_barcode, last_detection_time).  Times are seconds as rationals;
none is Python's None. -/
structure CodeStorageState where
  detected_codes : List DetectionRecord
  last_barcode : Option String
  last_detection_time : Option ℚ
deriving DecidableEq

/-- DETECTION_CONFIG cooldown_seconds (config.py). -/
def cooldown_seconds : ℚ := 2

/-- The second and third disjunct of the accept condition of
should_process_detection: last_detection_time is None, or the elapsed
seconds exceed the cooldown (Python short-circuits, so the subtraction is
only reached on a non-None time). -/
def cooldown_elapsed (last_time : Option ℚ) (now : ℚ) : Bool :=
  match last_time with
  | none => true
  | some t => decide (now - t > cooldown_seconds)

/-- CodeStorage.should_process_detection (storage/codeStorage.py): accepts
when the payload differs from last_barcode, or no time is stored, or the
cooldown has elapsed; on accept it overwrites last_barcode and
last_detection_time with the new payload and the current time, on reject it
leaves the object untouched.  Returned as (result, state after the call). -/
def should_process_detection (st : CodeStorageState) (barcode_data : String) (now : ℚ) :
    Bool × CodeStorageState :=
  if st.last_barcode ≠ some barcode_data ∨ cooldown_elapsed st.last_detection_time now = true then
    (true, { st with last_barcode := some barcode_data, last_detection_time := some now })
  else
    (false, st)

/-- Claim C2 counterexample: with the gate tracking payload X at time 0, a
second X at time 1 (elapsed 1 ≤ cooldown 2) is rejected, but the stored
timestamp still reads 0 — it is not refreshed to the time of the rejected
attempt as the claim states. -/
theorem rejected_attempt_does_not_refresh_timestamp :
    (should_process_detection ⟨[], some "X", some 0⟩ "X" 1).1 = false ∧
    (should_process_detection ⟨[], some "X", some 0⟩ "X" 1).2.last_detection_time = some 0 ∧
    (should_process_detection ⟨[], some "X", some 0⟩ "X" 1).2.last_detection_time ≠ some 1 := by
  have h : should_process_detection ⟨[], some "X", some 0⟩ "X" 1 =
      (false, ⟨[], some "X", some 0⟩) := by
    unfold should_process_detection cooldown_elapsed cooldown_seconds
    rw [if_neg]
    simp only [ne_eq, Option.some.injEq, not_or, not_not, decide_eq_true_eq, not_lt]
    exact ⟨trivial, by norm_num⟩
  rw [h]
  refine ⟨rfl, rfl, ?_⟩
  simp

/-- Claim C2 (amended): while the gate is tracking the same payload and the
elapsed time is at most the cooldown, the attempt is rejected and the whole
stored state — payload, timestamp and detections list — is left unchanged;
the cooldown state is mutated only by accepted attempts. -/
theorem same_payload_within_cooldown_rejected (st : CodeStorageState) (data : String)
    (t now : ℚ) (hb : st.last_barcode = some data) (ht : st.last_detection_time = some t)
    (h : now - t ≤ cooldown_seconds) :
    should_process_detection st data now = (false, st) := by
  unfold should_process_detection
  rw [if_neg]
  simp only [ne_eq, hb, ht, Option.some.injEq, not_or, not_not, cooldown_elapsed,
    decide_eq_true_eq, not_lt]
  exact ⟨trivial, h⟩

theorem same_payload_within_cooldown_rejected_witness :
    (⟨[], some "X", some 0⟩ : CodeStorageState).last_barcode = some "X" ∧
    (⟨[], some "X", some 0⟩ : CodeStorageState).last_detection_time = some 0 ∧
    (1 : ℚ) - 0 ≤ cooldown_seconds ∧
    should_process_detection ⟨[], some "X", some 0⟩ "X" 1 = (false, ⟨[], some "X", some 0⟩) :=
  ⟨rfl, rfl, by norm_num [cooldown_seconds],
    same_payload_within_cooldown_rejected ⟨[], some "X", some 0⟩ "X" 0 1 rfl rfl
      (by norm_num [cooldown_seconds])⟩

/-- Claim C3: starting from the empty gate, payload X at t=0 is accepted, X
again at t=1 is rejected, X at t=2.1 (measured against the surviving t=0
timestamp) is accepted, and — restarting from X accepted at t=0 — a different
payload Y at t=0.5 is accepted immediately. -/
theorem cooldown_scenario :
    (should_process_detection ⟨[], none, none⟩ "X" 0).1 = true ∧
    (should_process_detection
      (should_process_detection ⟨[], none, none⟩ "X" 0).2 "X" 1).1 = false ∧
    (should_process_detection
      (should_process_detection
        (should_process_detection ⟨[], none, none⟩ "X" 0).2 "X" 1).2 "X" (21/10)).1 = true ∧
    (should_process_detection
      (should_process_detection ⟨[], none, none⟩ "X" 0).2 "Y" (1/2)).1 = true := by
  have h0 : should_process_detection ⟨[], none, none⟩ "X" 0 =
      (true, ⟨[], some "X", some 0⟩) := by
    unfold should_process_detection cooldown_elapsed
    rw [if_pos]
    left
    simp
  have h1 : should_process_detection ⟨[], some "X", some 0⟩ "X" 1 =
      (false, ⟨[], some "X", some 0⟩) := by
    unfold should_process_detection cooldown_elapsed cooldown_seconds
    rw [if_neg]
    simp only [ne_eq, Option.some.injEq, not_or, not_not, decide_eq_true_eq, not_lt]
    exact ⟨trivial, by norm_num⟩
  have h2 : (should_process_detection ⟨[], some "X", some 0⟩ "X" (21/10)).1 = true := by
    unfold should_process_detection cooldown_elapsed cooldown_seconds
    rw [if_pos]
    right
    simp only [decide_eq_true_eq]
    norm_num
  have h3 : (should_process_detection ⟨[], some "X", some 0⟩ "Y" (1/2)).1 = true := by
    unfold should_process_detection
    rw [if_pos]
    left
    simp
  rw [h0, h1]
  exact ⟨rfl, rfl, h2, h3⟩

/-- Claim C9: should_process_detection leaves the state — last_barcode,
last_detection_time and the detected_codes list — entirely unchanged exactly
when it answers false, and overwrites last_barcode and last_detection_time
with the new payload and current time (keeping detected_codes) exactly when
it answers true. -/
theorem should_process_detection_state_effect (st : CodeStorageState) (data : String)
    (now : ℚ) :
    ((should_process_detection st data now).1 = false →
      (should_process_detection st data now).2 = st) ∧
    ((should_process_detection st data now).1 = true →
      (should_process_detection st data now).2 =
        ⟨st.detected_codes, some data, some now⟩) := by
  unfold should_process_detection
  split
  · exact ⟨fun h => absurd h (by simp), fun _ => rfl⟩
  · exact ⟨fun _ => rfl, fun h => absurd h (by simp)⟩

theorem should_process_detection_state_effect_witness :
    (should_process_detection ⟨[], none, none⟩ "A" 5).1 = true ∧
    (should_process_detection ⟨[], none, none⟩ "A" 5).2 = ⟨[], some "A", some 5⟩ := by
  have h : (should_process_detection ⟨[], none, none⟩ "A" 5).1 = true := by
    unfold should_process_detection
    rw [if_pos]
    left
    simp
  exact ⟨h, (should_process_detection_state_effect ⟨[], none, none⟩ "A" 5).2 h⟩

/-- The result record of CodeStorage.get_statistics (storage/codeStorage.py):
the per-type counts keep Python dict insertion order as an association
list. -/
structure Statistics where
  total : Nat
  valid : Nat
  invalid : Nat
  pharmaceutical : Nat
  non_pharmaceutical : Nat
  types_distribution : List (String × Nat)
deriving DecidableEq

/-- detection_rate of get_statistics, kept apart so that Statistics has
decidable equality; Python's float division is modelled as exact rational
division. -/
def detection_rate (codes : List DetectionRecord) : ℚ :=
  if 0 < codes.length then ((codes.filter fun c => c.valido).length : ℚ) / codes.length else 0

/-- One step of the types_count loop of get_statistics:
types_count[code_type] = types_count.get(code_type, 0) + 1 on a Python dict
with insertion order, modelled on an association list with unique keys. -/
def bumpType : List (String × Nat) → String → List (String × Nat)
  | [], t => [(t, 1)]
  | p :: rest, t => if p.1 = t then (p.1, p.2 + 1) :: rest else p :: bumpType rest t

/-- CodeStorage.get_statistics (storage/codeStorage.py): counts of all
records, of records flagged valido, of records flagged es_farmaceutico,
their complements, and the per-tipo counts. -/
def get_statistics (codes : List DetectionRecord) : Statistics :=
  { total := codes.length
    valid := (codes.filter fun c => c.valido).length
    invalid := codes.length - (codes.filter fun c => c.valido).length
    pharmaceutical := (codes.filter fun c => c.es_farmaceutico).length
    non_pharmaceutical := codes.length - (codes.filter fun c => c.es_farmaceutico).length
    types_distribution := codes.foldl (fun acc c => bumpType acc c.tipo) [] }

/-- Value stored for a key in the association list modelling the Python
types_count dict (0 when absent). -/
def lookupCount : List (String × Nat) → String → Nat
  | [], _ => 0
  | p :: rest, t => if p.1 = t then p.2 else lookupCount rest t

theorem lookupCount_bumpType (acc : List (String × Nat)) (u t : String) :
    lookupCount (bumpType acc u) t = lookupCount acc t + (if u = t then 1 else 0) := by
  induction acc with
  | nil =>
    by_cases h : u = t <;> simp [bumpType, lookupCount, h]
  | cons p rest ih =>
    by_cases hp : p.1 = u
    · rw [bumpType]
      by_cases ht : p.1 = t <;> simp [lookupCount, hp, ht, hp ▸ ht]
    · rw [bumpType, if_neg hp]
      by_cases ht : p.1 = t
      · have : ¬ u = t := fun h => hp (h ▸ ht)
        simp [lookupCount, ht, this]
      · simp [lookupCount, ht, ih]

theorem lookupCount_foldl (codes : List DetectionRecord) (acc : List (String × Nat))
    (t : String) :
    lookupCount (codes.foldl (fun a c => bumpType a c.tipo) acc) t =
      lookupCount acc t + (codes.filter fun c => c.tipo = t).length := by
  induction codes generalizing acc with
  | nil => simp
  | cons c rest ih =>
    rw [List.foldl_cons, ih, lookupCount_bumpType]
    by_cases h : c.tipo = t
    · simp [h]
      omega
    · simp [h]

/-- The three-record ledger of the claim: a valid EAN13, an invalid EAN13 and
a CODE128 (always valid, and all three pharmaceutical-typed as
add_detected_code flags them). -/
def ledger_example : List DetectionRecord :=
  [⟨"4006381333931", "EAN13", "t1", true, true⟩,
   ⟨"4006381333930", "EAN13", "t2", false, true⟩,
   ⟨"HELLO128", "CODE128", "t3", true, true⟩]

/-- Claim C8: get_statistics reports the record count, the count of records
flagged valid, the count flagged pharmaceutical, per-type counts, and a
valid rate of valid/total for a nonempty ledger and 0 for an empty one; on
the example ledger of a valid EAN13, an invalid EAN13 and a CODE128 it
reports total 3, valid 2, per-type counts EAN13 2 and CODE128 1, and rate
2/3. -/
theorem get_statistics_correct :
    (∀ codes : List DetectionRecord,
      (get_statistics codes).total = codes.length ∧
      (get_statistics codes).valid = (codes.filter fun c => c.valido).length ∧
      (get_statistics codes).pharmaceutical =
        (codes.filter fun c => c.es_farmaceutico).length ∧
      (∀ t, lookupCount (get_statistics codes).types_distribution t =
        (codes.filter fun c => c.tipo = t).length) ∧
      detection_rate codes =
        (if 0 < codes.length
          then ((codes.filter fun c => c.valido).length : ℚ) / codes.length else 0)) ∧
    (get_statistics ledger_example).total = 3 ∧
    (get_statistics ledger_example).valid = 2 ∧
    (get_statistics ledger_example).types_distribution = [("EAN13", 2), ("CODE128", 1)] ∧
    detection_rate ledger_example = 2 / 3 := by
  refine ⟨fun codes => ⟨rfl, rfl, rfl, fun t => ?_, rfl⟩, by decide, by decide, by decide, ?_⟩
  · rw [get_statistics]
    simpa [lookupCount] using lookupCount_foldl codes [] t
  · rw [detection_rate]
    norm_num [ledger_example]

/-- BarcodeValidator.is_pharmaceutical_code (detector/validator.py): false
for types outside EAN13/UPCA/CODE128; for an EAN13-typed payload of length
13, true iff it starts with one of the Spanish pharmacy prefixes; every
other recognised case defaults to true. -/
def is_pharmaceutical_code (code : String) (code_type : String) : Bool :=
  if code_type ∉ ["EAN13", "UPCA", "CODE128"] then false
  else if code_type = "EAN13" ∧ code.length = 13 then
    (["84", "76", "77", "80", "81", "82", "83"].any fun p => p.isPrefixOf code)
  else true

/-- Claim C10: an EAN13-typed payload whose length is not 13 skips the
pharmacy-prefix test and falls through to the default-true branch of
is_pharmaceutical_code. -/
theorem is_pharmaceutical_code_ean13_wrong_length (code : String)
    (h : code.length ≠ 13) :
    is_pharmaceutical_code code "EAN13" = true := by
  rw [is_pharmaceutical_code, if_neg (by simp), if_neg (by simp [h])]

theorem is_pharmaceutical_code_ean13_wrong_length_witness :
    ("1234" : String).length ≠ 13 ∧ is_pharmaceutical_code "1234" "EAN13" = true :=
  ⟨by decide, is_pharmaceutical_code_ean13_wrong_length "1234" (by decide)⟩

/-- Python's int() applied to a rational: truncation toward zero. -/
def pyInt (q : ℚ) : ℤ :=
  if 0 ≤ q then ⌊q⌋ else ⌈q⌉

/-- The five entries of the processed_frames list built by
ImageProcessor.preprocess_frame (detector/imageProcessor.py), in order:
the original frame, grayscale, CLAHE-enhanced, adaptive-binarized and
morphologically closed. -/
inductive CandidateRepresentation where
  | original
  | gray
  | clahe
  | binary
  | morph
deriving DecidableEq

/-- The order in which ImageProcessor.preprocess_frame emits the candidate
representations. -/
def preprocess_frame_order : List CandidateRepresentation :=
  [.original, .gray, .clahe, .binary, .morph]

/-- DETECTION_CONFIG scales (config.py): 1.0, 1.2, 0.8, 1.4 in this order. -/
def scales_config : List ℚ := [1, 6/5, 4/5, 7/5]

/-- The scale loop of ImageProcessor.detect_with_multiple_scales
(detector/imageProcessor.py).  The decode oracle d gives, for a scale, the
payloads pyzbar returns on the filtered frame resized by that scale (the
bilateral filter and the resize are absorbed into the oracle, which pyzbar
makes total: zero symbols is an empty list, not an exception).  At scale 1.0
the frame is decoded unresized; at any other scale the resized width
int(width*scale) and height int(height*scale) must both be positive, else
the scale is skipped.  The first scale with a non-empty decode is returned;
if none, the result is the empty list with scale 1.0. -/
def scanScales (d : ℚ → List String) (w h : Nat) : List ℚ → List String × ℚ
  | [] => ([], 1)
  | s :: rest =>
    if s = 1 then
      let bs := d s
      if bs ≠ [] then (bs, s) else scanScales d w h rest
    else
      if 0 < pyInt ((w : ℚ) * s) ∧ 0 < pyInt ((h : ℚ) * s) then
        let bs := d s
        if bs ≠ [] then (bs, s) else scanScales d w h rest
      else scanScales d w h rest

/-- ImageProcessor.detect_with_multiple_scales: the scale loop run over the
configured scales. -/
def detect_with_multiple_scales (d : ℚ → List String) (w h : Nat) : List String × ℚ :=
  scanScales d w h scales_config

/-- The representation loop of BarcodeDetector.process_frame
(detector/barcodeDetector.py): barcodes start empty with scale 1.0; the
first representation whose multi-scale detection is non-empty wins and the
loop breaks. -/
def scanReps (decode : CandidateRepresentation → ℚ → List String) (w h : Nat) :
    List CandidateRepresentation → List String × ℚ
  | [] => ([], 1)
  | r :: rest =>
    if (detect_with_multiple_scales (decode r) w h).1 ≠ [] then
      detect_with_multiple_scales (decode r) w h
    else scanReps decode w h rest

/-- The detection part of BarcodeDetector.process_frame: the representation
loop over the preprocessor's candidate list. -/
def process_frame_detect (decode : CandidateRepresentation → ℚ → List String)
    (w h : Nat) : List String × ℚ :=
  scanReps decode w h preprocess_frame_order

/-- Modelled from the claim text: the first scale in the given order whose
decode yields one or more symbols, with none when every scale yields
nothing. -/
def firstScaleHit (d : ℚ → List String) : List ℚ → Option (List String × ℚ)
  | [] => none
  | s :: rest => if d s ≠ [] then some (d s, s) else firstScaleHit d rest

/-- Modelled from the claim text: the symbol set and scale of the first
(representation, scale) pair, in representation-major order over the fixed
scale order, whose decode yields one or more symbols; the empty set with
scale 1.0 when no pair succeeds. -/
def firstPairHit (decode : CandidateRepresentation → ℚ → List String) :
    List CandidateRepresentation → List String × ℚ
  | [] => ([], 1)
  | r :: rest =>
    match firstScaleHit (decode r) scales_config with
    | some res => res
    | none => firstPairHit decode rest

theorem firstScaleHit_ne_nil (d : ℚ → List String) (l : List ℚ) (res : List String × ℚ)
    (h : firstScaleHit d l = some res) : res.1 ≠ [] := by
  induction l with
  | nil => exact absurd h (by simp [firstScaleHit])
  | cons s rest ih =>
    rw [firstScaleHit] at h
    by_cases hd : d s ≠ []
    · rw [if_pos hd] at h
      cases h
      exact hd
    · rw [if_neg hd] at h
      exact ih h

theorem firstScaleHit_none (d : ℚ → List String) (l : List ℚ)
    (h : ∀ s ∈ l, d s = []) : firstScaleHit d l = none := by
  induction l with
  | nil => rfl
  | cons s rest ih =>
    rw [firstScaleHit, if_neg (not_not_intro (h s (by simp)))]
    exact ih fun u hu => h u (by simp [hu])

theorem scanScales_eq_firstScaleHit (d : ℚ → List String) (w h : Nat) (l : List ℚ)
    (hg : ∀ s ∈ l, s ≠ 1 → 0 < pyInt ((w : ℚ) * s) ∧ 0 < pyInt ((h : ℚ) * s)) :
    scanScales d w h l =
      match firstScaleHit d l with
      | some res => res
      | none => ([], 1) := by
  induction l with
  | nil => rfl
  | cons s rest ih =>
    have ih' := ih fun u hu => hg u (by simp [hu])
    rw [scanScales, firstScaleHit]
    by_cases hs : s = 1
    · rw [if_pos hs]
      by_cases hd : d s ≠ []
      · rw [if_pos hd, if_pos hd]
      · rw [if_neg hd, if_neg hd]
        exact ih'
    · rw [if_neg hs, if_pos (hg s (by simp) hs)]
      by_cases hd : d s ≠ []
      · rw [if_pos hd, if_pos hd]
      · rw [if_neg hd, if_neg hd]
        exact ih'

theorem pyInt_mul_pos (w : Nat) (s : ℚ) (hw : 2 ≤ w) (hs : 4/5 ≤ s) :
    0 < pyInt ((w : ℚ) * s) := by
  have hw' : (2 : ℚ) ≤ (w : ℚ) := by exact_mod_cast hw
  have h1 : (1 : ℚ) ≤ (w : ℚ) * s := by nlinarith
  have h0 : (0 : ℚ) ≤ (w : ℚ) * s := le_trans (by norm_num) h1
  rw [pyInt, if_pos h0]
  have : (1 : ℤ) ≤ ⌊(w : ℚ) * s⌋ := Int.le_floor.mpr (by exact_mod_cast h1)
  omega

theorem scales_guard (w h : Nat) (hw : 2 ≤ w) (hh : 2 ≤ h) :
    ∀ s ∈ scales_config, s ≠ 1 →
      0 < pyInt ((w : ℚ) * s) ∧ 0 < pyInt ((h : ℚ) * s) := by
  intro s hs _
  have hb : 4/5 ≤ s := by
    rw [scales_config] at hs
    simp only [List.mem_cons, List.not_mem_nil, or_false] at hs
    rcases hs with rfl | rfl | rfl | rfl <;> norm_num
  exact ⟨pyInt_mul_pos w s hw hb, pyInt_mul_pos h s hh hb⟩

theorem scanReps_eq_firstPairHit (decode : CandidateRepresentation → ℚ → List String)
    (w h : Nat) (hw : 2 ≤ w) (hh : 2 ≤ h) (reps : List CandidateRepresentation) :
    scanReps decode w h reps = firstPairHit decode reps := by
  induction reps with
  | nil => rfl
  | cons r rest ih =>
    have hd : detect_with_multiple_scales (decode r) w h =
        match firstScaleHit (decode r) scales_config with
        | some res => res
        | none => ([], 1) :=
      scanScales_eq_firstScaleHit (decode r) w h scales_config (scales_guard w h hw hh)
    rw [scanReps, firstPairHit, hd]
    cases hfs : firstScaleHit (decode r) scales_config with
    | none =>
      rw [if_neg (by simp)]
      exact ih
    | some res =>
      rw [if_pos (firstScaleHit_ne_nil (decode r) scales_config res hfs)]

/-- Claim C4: per frame the pipeline takes the representations in
preprocessor order and, inside each, the scales in the order 1.0, 1.2, 0.8,
1.4, and answers the symbols and scale of the first (representation, scale)
pair whose decode is non-empty — no later pair matters; and a representation
all of whose scales decode to nothing contributes the empty list with scale
1.0.  The frame must be at least 2 pixels wide and tall so that no resized
dimension collapses to zero. -/
theorem process_frame_first_pair_wins (decode : CandidateRepresentation → ℚ → List String)
    (w h : Nat) (hw : 2 ≤ w) (hh : 2 ≤ h) :
    process_frame_detect decode w h = firstPairHit decode preprocess_frame_order ∧
    ∀ d : ℚ → List String, (∀ s ∈ scales_config, d s = []) →
      detect_with_multiple_scales d w h = ([], 1) := by
  constructor
  · exact scanReps_eq_firstPairHit decode w h hw hh preprocess_frame_order
  · intro d hd
    rw [detect_with_multiple_scales,
      scanScales_eq_firstScaleHit d w h scales_config (scales_guard w h hw hh),
      firstScaleHit_none d scales_config hd]

/-- A decode oracle for the witness: only the CLAHE representation at scale
1.2 yields a symbol. -/
def witness_decode : CandidateRepresentation → ℚ → List String :=
  fun r s => if r = CandidateRepresentation.clahe ∧ s = 6/5 then ["4006381333931"] else []

theorem process_frame_first_pair_wins_witness :
    2 ≤ 100 ∧
    (process_frame_detect witness_decode 100 100 =
        firstPairHit witness_decode preprocess_frame_order ∧
      ∀ d : ℚ → List String, (∀ s ∈ scales_config, d s = []) →
        detect_with_multiple_scales d 100 100 = ([], 1)) :=
  ⟨by decide, process_frame_first_pair_wins witness_decode 100 100 (by decide) (by decide)⟩

/-- The bounding-box remap at the head of DisplayManager.draw_barcode_info
(utils/display.py): each of x, y, w, h from the pyzbar rect (reported in the
scaled coordinate space) is divided by the scale factor and truncated back
to int. -/
def draw_barcode_info_rect (x y w h : Nat) (scale_factor : ℚ) : ℤ × ℤ × ℤ × ℤ :=
  (pyInt ((x : ℚ) / scale_factor), pyInt ((y : ℚ) / scale_factor),
   pyInt ((w : ℚ) / scale_factor), pyInt ((h : ℚ) / scale_factor))

/-- Claim C7: the reported box is remapped to original-frame coordinates by
dividing each of x, y, w and h by the scale factor used (then truncating to
int, which for these non-negative quotients is the floor); in particular the
box (120, 120, 60, 30) found at scale 1.2 remaps exactly to
(100, 100, 50, 25). -/
theorem draw_barcode_info_remap (x y w h : Nat) (s : ℚ) (hs : 0 < s) :
    draw_barcode_info_rect x y w h s =
      (⌊(x : ℚ) / s⌋, ⌊(y : ℚ) / s⌋, ⌊(w : ℚ) / s⌋, ⌊(h : ℚ) / s⌋) ∧
    draw_barcode_info_rect 120 120 60 30 (6/5) = (100, 100, 50, 25) := by
  constructor
  · have hdiv : ∀ n : Nat, pyInt ((n : ℚ) / s) = ⌊(n : ℚ) / s⌋ := by
      intro n
      rw [pyInt, if_pos (div_nonneg (Nat.cast_nonneg n) (le_of_lt hs))]
    rw [draw_barcode_info_rect, hdiv, hdiv, hdiv, hdiv]
  · rw [draw_barcode_info_rect]
    norm_num [pyInt]

theorem draw_barcode_info_remap_witness :
    (0 : ℚ) < 6/5 ∧
    (draw_barcode_info_rect 120 120 60 30 (6/5) =
        (⌊((120 : Nat) : ℚ) / (6/5)⌋, ⌊((120 : Nat) : ℚ) / (6/5)⌋,
         ⌊((60 : Nat) : ℚ) / (6/5)⌋, ⌊((30 : Nat) : ℚ) / (6/5)⌋) ∧
      draw_barcode_info_rect 120 120 60 30 (6/5) = (100, 100, 50, 25)) :=
  ⟨by norm_num, draw_barcode_info_remap 120 120 60 30 (6/5) (by norm_num)⟩

end UniScann
